import Mathlib

/-!
Shallow embedding of `cloud/docker/swarm_service.py` (ansible-modules-core).

The module reconciles a declared docker swarm service against live state:
`DockerService` is the normalized service model, `compare_services` the
differ, `generate_docker_py_service_description` the spec translator,
`get_service` the state fetcher, and `main` the convergence driver.

Python values are embedded as follows: floats as exact rationals (`ℚ`),
ints as `ℤ`, dicts with string keys/values as association lists compared
as sets of key/value pairs (`pyDictEq`), `None`-able fields as `Option`,
and raised exceptions as `Except String`.
-/

/-- A mount entry: a Python dict with keys `source`, `target`, `type`
(built by `service_from_params` / `get_service`, lines 395-400). -/
structure Mount where
  source : String
  target : String
  type : String
deriving DecidableEq

/-- A published-port entry: dict with keys `protocol`, `published_port`,
`target_port`. -/
structure PortSpec where
  protocol : String
  published_port : Int
  target_port : Int
deriving DecidableEq

/-- One entry of `get_networks_names_ids` (line 338-339):
`{'name': n['Name'], 'id': n['Id']}`. -/
structure NetworkNameId where
  name : String
  id : String
deriving DecidableEq

/-- The normalized service model, `DockerServiceManager.DockerService.__init__`
(lines 236-260).  Default field values mirror the constructor.  `service_id`
and `service_version` are initialized to `False` in the source and only ever
hold a real value on fetched services; they are embedded as `Option`.
The `restart_policy*` fields are initialized to `None`, hence `Option`. -/
structure DockerService where
  constraints : List String := []
  image : String := ""
  args : List String := []
  endpoint_mode : String := "vip"
  env : List String := []
  labels : List (String × String) := []
  container_labels : List (String × String) := []
  limit_cpu : ℚ := 0
  limit_memory : Int := 0
  reserve_cpu : ℚ := 0
  reserve_memory : Int := 0
  mode : String := "replicated"
  mounts : List Mount := []
  networks : List String := []
  publish : List PortSpec := []
  replicas : Int := 1
  service_id : Option String := none
  service_version : Option Int := none
  restart_policy : Option String := none
  restart_policy_attempts : Option Int := none
  restart_policy_delay : Option Int := none
  restart_policy_window : Option Int := none
deriving DecidableEq

/-- Python `==` on two dicts: equality as sets of key/value pairs
(order-insensitive).  Association lists built from Python dicts carry
no duplicate keys, for which this coincides with dict equality. -/
def pyDictEq (a b : List (String × String)) : Bool :=
  a.all (fun kv => decide (kv ∈ b)) && b.all (fun kv => decide (kv ∈ a))

/-- `DockerServiceManager.compare_services` (lines 460-494).  Each `if`
mirrors one source comparison, in source order; appending to `changes`
mirrors `changes.append(...)`; `need_recreate` is set to `true` only in
the `networks` branch.  Returns `(len(changes)>0, changes, need_recreate)`. -/
def compare_services (s1 s2 : DockerService) : Bool × List String × Bool :=
  let changes : List String := []
  let need_recreate : Bool := false
  let changes := if s1.endpoint_mode = s2.endpoint_mode then changes else changes ++ ["endpoint_mode"]
  let changes := if s1.env = s2.env then changes else changes ++ ["env"]
  let changes := if s1.mode = s2.mode then changes else changes ++ ["mode"]
  let changes := if s1.mounts = s2.mounts then changes else changes ++ ["mounts"]
  let changes := if s1.networks = s2.networks then changes else changes ++ ["networks"]
  let need_recreate := if s1.networks = s2.networks then need_recreate else true
  let changes := if s1.replicas = s2.replicas then changes else changes ++ ["replicas"]
  let changes := if s1.args = s2.args then changes else changes ++ ["args"]
  let changes := if s1.constraints = s2.constraints then changes else changes ++ ["constraints"]
  let changes := if pyDictEq s1.labels s2.labels then changes else changes ++ ["labels"]
  let changes := if s1.limit_cpu = s2.limit_cpu then changes else changes ++ ["limit_cpu"]
  let changes := if s1.limit_memory = s2.limit_memory then changes else changes ++ ["limit_memory"]
  let changes := if s1.reserve_cpu = s2.reserve_cpu then changes else changes ++ ["reserve_cpu"]
  let changes := if s1.reserve_memory = s2.reserve_memory then changes else changes ++ ["reserve_memory"]
  let changes := if pyDictEq s1.container_labels s2.container_labels then changes else changes ++ ["container_labels"]
  let changes := if s1.publish = s2.publish then changes else changes ++ ["publish"]
  (decide (changes.length > 0), changes, need_recreate)

theorem pyDictEq_self (a : List (String × String)) : pyDictEq a a = true := by
  simp [pyDictEq, List.all_eq_true]

/-! ## Spec Translator: `generate_docker_py_service_description` (lines 271-333) -/

/-- Python `int()` applied to a float: truncation toward zero. -/
def pyInt (q : ℚ) : Int := if 0 ≤ q then Int.floor q else Int.ceil q

/-- A wire mount dict `{'Target':…, 'Source':…, 'Type':…}` (lines 277-281).
The field for the wire key `Type` is named `MountType` because `Type` is
reserved in Lean. -/
structure WireMount where
  Target : String
  Source : String
  MountType : String
deriving DecidableEq

/-- The container spec dict `cspec` (lines 272-284). -/
structure ContainerSpec where
  Image : String
  Mounts : List WireMount
  Args : List String
  Env : List String
  Labels : List (String × String)
deriving DecidableEq

/-- `docker.types.RestartPolicy(condition, delay, max_attempts, window)`
(lines 285-290); values are passed through as given. -/
structure RestartPolicyWire where
  condition : Option String
  delay : Option Int
  max_attempts : Option Int
  window : Option Int
deriving DecidableEq

/-- One of the `Limits` / `Reservations` dicts (lines 292-299). -/
structure ResourceSet where
  NanoCPUs : Int
  MemoryBytes : Int
deriving DecidableEq

/-- The `resources` dict (lines 291-300). -/
structure Resources where
  Limits : ResourceSet
  Reservations : ResourceSet
deriving DecidableEq

/-- `docker.types.TaskTemplate(container_spec, restart_policy, placement,
resources)` (lines 301-306). -/
structure TaskTemplate where
  container_spec : ContainerSpec
  restart_policy : RestartPolicyWire
  placement : List String
  resources : Resources
deriving DecidableEq

/-- The service mode value: `{'Replicated': {'Replicas': replicas}}` or the
`{'Global'}` tag (lines 307-309). -/
inductive ServiceModeWire where
  | Replicated (Replicas : Int)
  | Global
deriving DecidableEq

/-- A `{'Target': network_id}` entry of the wire networks list (lines 319-321). -/
structure WireNetwork where
  Target : String
deriving DecidableEq

/-- A wire port dict `{'Protocol':…, 'PublishedPort':…, 'TargetPort':…}`
(lines 328-332); also the raw shape read back by `get_service`. -/
structure WirePort where
  Protocol : String
  PublishedPort : Int
  TargetPort : Int
deriving DecidableEq

/-- The `endpoint_spec` dict (lines 325-332). -/
structure EndpointSpec where
  Mode : String
  Ports : List WirePort
deriving DecidableEq

/-- The tuple returned by `generate_docker_py_service_description`
(line 333): `task_template, networks, endpoint_spec, mode, self.labels`. -/
abbrev WireDescription :=
  TaskTemplate × List WireNetwork × EndpointSpec × ServiceModeWire × List (String × String)

/-- The network-id lookup of line 315:
`filter(lambda n: n['name']==network_name, docker_networks)[0]['id']`,
`None` when the filtered list is empty (IndexError caught by the bare
`except: pass`). -/
def lookupNetworkId (docker_networks : List NetworkNameId) (network_name : String) : Option String :=
  ((docker_networks.filter (fun n => n.name == network_name)).map (fun n => n.id)).head?

/-- The networks loop of lines 311-323: for each desired name resolve an id;
`if network_id:` is Python truthiness, so both a missing name (`None`) and an
empty-string id take the `raise` branch. -/
def resolveNetworks (docker_networks : List NetworkNameId) : List String → Except String (List WireNetwork)
  | [] => .ok []
  | network_name :: rest =>
    match lookupNetworkId docker_networks network_name with
    | some network_id =>
      if network_id ≠ "" then
        match resolveNetworks docker_networks rest with
        | .ok tail => .ok ({ Target := network_id } :: tail)
        | .error e => .error e
      else .error ("no docker networks named: " ++ network_name)
    | none => .error ("no docker networks named: " ++ network_name)

/-- `DockerService.generate_docker_py_service_description` (lines 271-333).
Note lines 296-299: the source computes `Reservations` from `limit_cpu` and
`limit_memory`, not from the `reserve_*` fields.  The `name` argument is
accepted and unused, as in the source. -/
def generate_docker_py_service_description (s : DockerService) (name : String)
    (docker_networks : List NetworkNameId) : Except String WireDescription :=
  let cspec : ContainerSpec :=
    { Image := s.image
      Mounts := s.mounts.map (fun m =>
        { Target := m.target, Source := m.source, MountType := m.type })
      Args := s.args
      Env := s.env
      Labels := s.container_labels }
  let restart_policy : RestartPolicyWire :=
    { condition := s.restart_policy
      delay := s.restart_policy_delay
      max_attempts := s.restart_policy_attempts
      window := s.restart_policy_window }
  let resources : Resources :=
    { Limits :=
        { NanoCPUs := pyInt (s.limit_cpu * 1000000000)
          MemoryBytes := s.limit_memory * 1024 * 1024 }
      Reservations :=
        { NanoCPUs := pyInt (s.limit_cpu * 1000000000)
          MemoryBytes := s.limit_memory * 1024 * 1024 } }
  let task_template : TaskTemplate :=
    { container_spec := cspec
      restart_policy := restart_policy
      placement := s.constraints
      resources := resources }
  let mode : ServiceModeWire :=
    if s.mode = "global" then .Global else .Replicated s.replicas
  match resolveNetworks docker_networks s.networks with
  | .error e => .error e
  | .ok networks =>
    let endpoint_spec : EndpointSpec :=
      { Mode := s.endpoint_mode
        Ports := s.publish.map (fun p =>
          { Protocol := p.protocol
            PublishedPort := p.published_port
            TargetPort := p.target_port }) }
    .ok (task_template, networks, endpoint_spec, mode, s.labels)

/-- Shared unfolding: whenever the networks resolve, the translation
succeeds and every component is determined by the spec fields. -/
theorem generate_eq_ok (s : DockerService) (name : String)
    (docker_networks : List NetworkNameId) (networks : List WireNetwork)
    (h : resolveNetworks docker_networks s.networks = .ok networks) :
    generate_docker_py_service_description s name docker_networks =
      .ok ({ container_spec :=
               { Image := s.image
                 Mounts := s.mounts.map (fun m =>
                   { Target := m.target, Source := m.source, MountType := m.type })
                 Args := s.args
                 Env := s.env
                 Labels := s.container_labels }
             restart_policy :=
               { condition := s.restart_policy
                 delay := s.restart_policy_delay
                 max_attempts := s.restart_policy_attempts
                 window := s.restart_policy_window }
             placement := s.constraints
             resources :=
               { Limits :=
                   { NanoCPUs := pyInt (s.limit_cpu * 1000000000)
                     MemoryBytes := s.limit_memory * 1024 * 1024 }
                 Reservations :=
                   { NanoCPUs := pyInt (s.limit_cpu * 1000000000)
                     MemoryBytes := s.limit_memory * 1024 * 1024 } } },
           networks,
           { Mode := s.endpoint_mode
             Ports := s.publish.map (fun p =>
               { Protocol := p.protocol
                 PublishedPort := p.published_port
                 TargetPort := p.target_port }) },
           (if s.mode = "global" then .Global else .Replicated s.replicas),
           s.labels) := by
  unfold generate_docker_py_service_description
  rw [h]

/-- Shared unfolding: a failed network resolution is the translation's error. -/
theorem generate_eq_error (s : DockerService) (name : String)
    (docker_networks : List NetworkNameId) (e : String)
    (h : resolveNetworks docker_networks s.networks = .error e) :
    generate_docker_py_service_description s name docker_networks = .error e := by
  unfold generate_docker_py_service_description
  rw [h]

/-- A desired network name passes the source's `if network_id:` test: some
known network carries the name and the first such id is non-empty. -/
def goodNetwork (known : List NetworkNameId) (n : String) : Bool :=
  match lookupNetworkId known n with
  | some id => id != ""
  | none => false

theorem resolveNetworks_ok (known : List NetworkNameId) (ns : List String)
    (h : ∀ n ∈ ns, goodNetwork known n = true) :
    resolveNetworks known ns =
      .ok (ns.map (fun n => { Target := (lookupNetworkId known n).getD "" })) := by
  induction ns with
  | nil => rfl
  | cons n rest ih =>
    have hn : goodNetwork known n = true := h n (List.mem_cons_self n rest)
    unfold goodNetwork at hn
    cases hl : lookupNetworkId known n with
    | none => rw [hl] at hn; cases hn
    | some id =>
      rw [hl] at hn
      have hid : id ≠ "" := by simpa using hn
      simp only [resolveNetworks, hl, List.map_cons]
      rw [if_pos hid, ih (fun m hm => h m (List.mem_cons_of_mem n hm))]
      simp [hl]

theorem resolveNetworks_error (known : List NetworkNameId) (ns : List String)
    (n0 : String) (h : ns.find? (fun n => !goodNetwork known n) = some n0) :
    resolveNetworks known ns = .error ("no docker networks named: " ++ n0) := by
  induction ns with
  | nil => cases h
  | cons n rest ih =>
    rw [List.find?_cons] at h
    cases hg : goodNetwork known n with
    | false =>
      rw [hg] at h
      simp at h
      subst h
      unfold goodNetwork at hg
      cases hl : lookupNetworkId known n with
      | none => simp only [resolveNetworks, hl]
      | some id =>
        rw [hl] at hg
        have hid : id = "" := by simpa using hg
        simp only [resolveNetworks, hl]
        rw [if_neg (by simp [hid])]
    | true =>
      rw [hg] at h
      simp at h
      unfold goodNetwork at hg
      cases hl : lookupNetworkId known n with
      | none => rw [hl] at hg; cases hg
      | some id =>
        rw [hl] at hg
        have hid : id ≠ "" := by simpa using hg
        simp only [resolveNetworks, hl]
        rw [if_pos hid, ih h]

/-- C6 counterexample input: desired spec naming the network `backend`. -/
def c6Spec : DockerService := { networks := ["backend"] }

/-- C6 counterexample input: the known networks do contain an entry named
`backend`, but its id is the empty string (falsy in Python). -/
def c6Known : List NetworkNameId := [{ name := "backend", id := "" }]

/-- C6 counterexample: the desired name `backend` has a matching entry in the
known networks, yet translation fails with the not-found error instead of
appending a `{Target: id}` entry — the source's `if network_id:` treats an
empty-string id as missing. -/
theorem network_resolution_counterexample :
    (∀ n ∈ c6Spec.networks, ∃ e ∈ c6Known, e.name = n) ∧
    generate_docker_py_service_description c6Spec "svc" c6Known =
      .error ("no docker networks named: " ++ "backend") := by
  constructor
  · decide
  · exact generate_eq_error c6Spec "svc" c6Known _
      (resolveNetworks_error c6Known c6Spec.networks "backend" (by decide))

/-- C6 amended: if every desired name resolves to a non-empty id (the
source's truthiness test), translation succeeds and the wire network list
has one `{Target: id}` entry per name, in the order of `spec.networks`,
each id being the first matching known network's id; otherwise translation
fails naming the first name whose lookup fails (missing, or first match
with an empty id). -/
theorem network_resolution (s : DockerService) (name : String)
    (known : List NetworkNameId) :
    ((∀ n ∈ s.networks, goodNetwork known n = true) →
      ∃ d : WireDescription,
        generate_docker_py_service_description s name known = .ok d ∧
        d.2.1 = s.networks.map (fun n => { Target := (lookupNetworkId known n).getD "" })) ∧
    (∀ n0, s.networks.find? (fun n => !goodNetwork known n) = some n0 →
      generate_docker_py_service_description s name known =
        .error ("no docker networks named: " ++ n0)) := by
  constructor
  · intro h
    exact ⟨_, generate_eq_ok s name known _ (resolveNetworks_ok known s.networks h), rfl⟩
  · intro n0 h
    exact generate_eq_error s name known _ (resolveNetworks_error known s.networks n0 h)

/-- C6 witness inputs: two resolvable names, and a spec naming a missing one. -/
def w6Spec : DockerService := { networks := ["front", "back"] }

def w6BadSpec : DockerService := { networks := ["front", "missing"] }

def w6Known : List NetworkNameId :=
  [{ name := "front", id := "f1" }, { name := "back", id := "b2" }]

/-- C3 failing input: limits and reservations requested with different
values (`limit_cpu=2` vs `reserve_cpu=1`, `limit_memory=64` vs
`reserve_memory=32`). -/
def c3Spec : DockerService :=
  { limit_cpu := 2, limit_memory := 64, reserve_cpu := 1, reserve_memory := 32 }

/-- C3: evaluating the translator at the failing input shows `Reservations`
taking the limit-derived values (2e9 nano-CPUs, 64 MiB in bytes), not the
reserve-derived values (1e9 nano-CPUs, 32 MiB in bytes): lines 296-299 read
`limit_cpu`/`limit_memory` instead of `reserve_cpu`/`reserve_memory`. -/
theorem reservations_follow_limits :
    ∃ d : WireDescription,
      generate_docker_py_service_description c3Spec "svc" [] = .ok d ∧
      d.1.resources.Reservations.NanoCPUs = 2000000000 ∧
      d.1.resources.Reservations.MemoryBytes = 67108864 ∧
      pyInt (c3Spec.reserve_cpu * 1000000000) = 1000000000 ∧
      c3Spec.reserve_memory * 1024 * 1024 = 33554432 ∧
      (2000000000 : Int) ≠ 1000000000 ∧ (67108864 : Int) ≠ 33554432 := by
  refine ⟨_, generate_eq_ok c3Spec "svc" [] [] rfl, ?_, ?_, ?_, ?_, by decide, by decide⟩
  · show pyInt (c3Spec.limit_cpu * 1000000000) = 2000000000
    have h : (c3Spec.limit_cpu * 1000000000) = (2000000000 : ℚ) := by
      norm_num [c3Spec]
    rw [pyInt, h, if_pos (by norm_num), Int.floor_eq_iff]
    norm_num
  · show c3Spec.limit_memory * 1024 * 1024 = 67108864
    norm_num [c3Spec]
  · have h : (c3Spec.reserve_cpu * 1000000000) = (1000000000 : ℚ) := by
      norm_num [c3Spec]
    rw [pyInt, h, if_pos (by norm_num), Int.floor_eq_iff]
    norm_num
  · norm_num [c3Spec]

/-- C5 counterexample input: a fractional CPU limit of 1.7 nano-CPUs. -/
def c5Spec : DockerService := { limit_cpu := 17 / 10000000000 }

/-- C5 counterexample: at `limit_cpu = 1.7e-9` the translated
`Limits.NanoCPUs` is 1 — Python `int()` truncates toward zero — while
`round(limit_cpu * 1e9) = 2`, so the claimed rounding equation fails. -/
theorem limits_round_counterexample :
    ∃ d : WireDescription,
      generate_docker_py_service_description c5Spec "svc" [] = .ok d ∧
      d.1.resources.Limits.NanoCPUs = 1 ∧
      round (c5Spec.limit_cpu * 1000000000) = 2 := by
  refine ⟨_, generate_eq_ok c5Spec "svc" [] [] rfl, ?_, ?_⟩
  · show pyInt (c5Spec.limit_cpu * 1000000000) = 1
    have h : (c5Spec.limit_cpu * 1000000000) = (17 / 10 : ℚ) := by
      norm_num [c5Spec]
    rw [pyInt, h, if_pos (by norm_num), Int.floor_eq_iff]
    norm_num
  · have h : (c5Spec.limit_cpu * 1000000000) = (17 / 10 : ℚ) := by
      norm_num [c5Spec]
    rw [h, round_eq, Int.floor_eq_iff]
    norm_num

/-- Shared projection: on success the wire limits come from `limit_cpu`
truncated to nano-CPUs and `limit_memory` scaled to bytes. -/
theorem generate_ok_limits (s : DockerService) (name : String)
    (known : List NetworkNameId) (d : WireDescription)
    (h : generate_docker_py_service_description s name known = .ok d) :
    d.1.resources.Limits.NanoCPUs = pyInt (s.limit_cpu * 1000000000) ∧
    d.1.resources.Limits.MemoryBytes = s.limit_memory * 1024 * 1024 := by
  cases hr : resolveNetworks known s.networks with
  | error e => rw [generate_eq_error s name known e hr] at h; cases h
  | ok nets =>
    rw [generate_eq_ok s name known nets hr] at h
    cases h
    exact ⟨rfl, rfl⟩

/-- C5 amended: for every spec whose translation succeeds, the wire limits
are `Limits.NanoCPUs = int(limit_cpu * 1e9)` with `int()` truncating toward
zero (not `round`), and `Limits.MemoryBytes = limit_memory * 1024 * 1024`
exactly as claimed. -/
theorem limits_units (s : DockerService) (name : String)
    (known : List NetworkNameId) (d : WireDescription)
    (h : generate_docker_py_service_description s name known = .ok d) :
    d.1.resources.Limits.NanoCPUs = pyInt (s.limit_cpu * 1000000000) ∧
    d.1.resources.Limits.MemoryBytes = s.limit_memory * 1024 * 1024 :=
  generate_ok_limits s name known d h

/-- C5 witness input. -/
def w5Spec : DockerService := { limit_cpu := 2, limit_memory := 5 }

/-- C5 witness output: the translation of `w5Spec` against no networks. -/
def w5Desc : WireDescription :=
  ({ container_spec := { Image := "", Mounts := [], Args := [], Env := [], Labels := [] }
     restart_policy := { condition := none, delay := none, max_attempts := none, window := none }
     placement := []
     resources :=
       { Limits := { NanoCPUs := pyInt ((2 : ℚ) * 1000000000), MemoryBytes := 5 * 1024 * 1024 }
         Reservations := { NanoCPUs := pyInt ((2 : ℚ) * 1000000000), MemoryBytes := 5 * 1024 * 1024 } } },
   [], { Mode := "vip", Ports := [] }, .Replicated 1, [])

theorem limits_units_witness :
    w5Desc.1.resources.Limits.NanoCPUs = pyInt (w5Spec.limit_cpu * 1000000000) ∧
    w5Desc.1.resources.Limits.MemoryBytes = w5Spec.limit_memory * 1024 * 1024 :=
  limits_units w5Spec "svc" [] w5Desc (generate_eq_ok w5Spec "svc" [] [] rfl)

theorem network_resolution_witness :
    (∃ d : WireDescription,
      generate_docker_py_service_description w6Spec "svc" w6Known = .ok d ∧
      d.2.1 = w6Spec.networks.map (fun n => { Target := (lookupNetworkId w6Known n).getD "" })) ∧
    generate_docker_py_service_description w6BadSpec "svc" w6Known =
      .error ("no docker networks named: " ++ "missing") :=
  ⟨(network_resolution w6Spec "svc" w6Known).1 (by decide),
   (network_resolution w6BadSpec "svc" w6Known).2 "missing" (by decide)⟩

/-! ## Convergence driver: `main` (lines 496-565) -/

/-- A mutating `DockerServiceManager` method invoked by `main`
(`remove_service`, `create_service`, `update_service`; lines 408-433). -/
inductive ManagerCall where
  | remove_service (name : String)
  | create_service (name : String) (service : DockerService)
  | update_service (name : String) (old_service new_service : DockerService)
deriving DecidableEq

/-- The payload of a `module.exit_json` call: the message and the reported
`changed` flag (`exit_json(msg="service unchanged")` leaves `changed` at the
Ansible default `False`). -/
structure ExitResult where
  msg : String
  changed : Bool
deriving DecidableEq

namespace SwarmService

/-- The decision logic of `main` (lines 540-564), given the fetched actual
service (`current_service`, absent as `none`), the desired spec built from
the parameters (`new_service`), the requested `state`, and `check_mode`.
Returns the `exit_json` payload and the list of mutating manager calls
issued, in order; each `if not module.check_mode:` guard is mirrored by a
`check_mode` conditional around the emitted calls.  The definition lives in
a namespace because a bare `main` is reserved by Lean. -/
def main (state : String) (current_service : Option DockerService)
    (new_service : DockerService) (name : String) (check_mode : Bool) :
    ExitResult × List ManagerCall :=
  match current_service with
  | some current =>
    if state = "absent" then
      ({ msg := "service removed", changed := true },
       if check_mode then [] else [.remove_service name])
    else
      let cmp := compare_services current new_service
      if cmp.1 then
        if cmp.2.2 then
          ({ msg := "rebuild service (changes: " ++ String.intercalate "," cmp.2.1 ++ ")",
             changed := true },
           if check_mode then [] else [.remove_service name, .create_service name new_service])
        else
          ({ msg := "service edited (changes: " ++ String.intercalate "," cmp.2.1 ++ ")",
             changed := true },
           if check_mode then [] else [.update_service name current new_service])
      else
        ({ msg := "service unchanged", changed := false }, [])
  | none =>
    if state = "absent" then
      ({ msg := "service already absent", changed := false }, [])
    else
      ({ msg := "service created", changed := true },
       if check_mode then [] else [.create_service name new_service])

end SwarmService

open SwarmService

/-- C4: on every branch, check mode reports exactly the result of a
non-check-mode run (message, changed flag, and the change list embedded in
the message) while issuing no mutating manager call. -/
theorem check_mode_no_mutation (state : String) (current_service : Option DockerService)
    (new_service : DockerService) (name : String) :
    (main state current_service new_service name true).1 =
      (main state current_service new_service name false).1 ∧
    (main state current_service new_service name true).2 = [] := by
  cases current_service with
  | none => by_cases hs : state = "absent" <;> simp [main, hs]
  | some current =>
    by_cases hs : state = "absent"
    · simp [main, hs]
    · by_cases h1 : (compare_services current new_service).1 <;>
        by_cases h2 : (compare_services current new_service).2.2 <;>
        simp [main, hs, h1, h2]

/-- C1 failing input: actual and desired coincide on every field except
`restart_policy` (`any` vs `on-failure`). -/
def c1Actual : DockerService := { image := "mysql:5.7", restart_policy := some "any" }

def c1Desired : DockerService := { image := "mysql:5.7", restart_policy := some "on-failure" }

/-- C1: the differ of the source never compares `restart_policy` (nor
`image`), so two specs differing only in `restart_policy` compare as
unchanged and the driver reports "service unchanged" with changed=false
instead of the claimed update with "service edited (changes:
restart_policy)". -/
theorem restart_policy_not_compared :
    c1Actual.restart_policy ≠ c1Desired.restart_policy ∧
    compare_services c1Actual c1Desired = (false, [], false) ∧
    (main "present" (some c1Actual) c1Desired "mydb" false).1 =
      { msg := "service unchanged", changed := false } ∧
    (main "present" (some c1Actual) c1Desired "mydb" false).2 = [] := by
  refine ⟨by decide, by decide, ?_, ?_⟩ <;>
    simp [main, show compare_services c1Actual c1Desired = (false, [], false) from by decide]

/-- C9 counterexample input: two global-mode specs differing only in
`replicas`. -/
def c9Actual : DockerService := { mode := "global", replicas := 1 }

def c9Desired : DockerService := { mode := "global", replicas := 3 }

/-- C9 counterexample: the source's differ compares `replicas`
unconditionally (lines 474-475), so two specs with `mode == global` on both
sides that differ only in `replicas` report changed=true with
changedFields=['replicas'], not the claimed changed=false. -/
theorem replicas_compared_in_global_mode :
    c9Actual.mode = "global" ∧ c9Desired.mode = "global" ∧
    compare_services c9Actual c9Desired = (true, ["replicas"], false) := by
  refine ⟨rfl, rfl, by decide⟩

/-- C9 amended: the differ compares `replicas` regardless of mode — for any
spec with global mode, changing only `replicas` yields changed=true with
changedFields exactly `['replicas']` (and needRecreate=false). -/
theorem replicas_always_compared (s : DockerService) (r : Int)
    (hmode : s.mode = "global") (hne : r ≠ s.replicas) :
    compare_services s { s with replicas := r } = (true, ["replicas"], false) := by
  have hr : ¬ s.replicas = r := fun h => hne h.symm
  simp [compare_services, pyDictEq_self, hr]

theorem replicas_always_compared_witness :
    compare_services { mode := "global" }
      { ({ mode := "global" } : DockerService) with replicas := 3 } =
      (true, ["replicas"], false) :=
  replicas_always_compared { mode := "global" } 3 rfl (by decide)

/-! ## State fetcher: `get_service` (lines 341-406) and
`update_service` (lines 408-419) -/

/-- The `Placement` dict of a raw task template; `Constraints` read with
`.get('Constraints', [])` (line 357). -/
structure RawPlacement where
  Constraints : Option (List String) := none
deriving DecidableEq

/-- A raw `Limits` / `Reservations` dict; each key tested with `in` before
being read (lines 373-383). -/
structure RawResourceSet where
  NanoCPUs : Option Int := none
  MemoryBytes : Option Int := none
deriving DecidableEq

/-- The raw `Resources` dict (lines 373-383). -/
structure RawResources where
  Limits : Option RawResourceSet := none
  Reservations : Option RawResourceSet := none
deriving DecidableEq

/-- The raw `ContainerSpec` dict: `Image` indexed directly, the rest read
with `.get(..., default)` (lines 352-354, 386, 395).  Raw mounts have the
same wire shape the translator emits. -/
structure RawContainerSpec where
  Image : String
  Env : Option (List String) := none
  Args : Option (List String) := none
  Labels : Option (List (String × String)) := none
  Mounts : Option (List WireMount) := none
deriving DecidableEq

/-- The raw `TaskTemplate` dict (line 350). -/
structure RawTaskTemplate where
  ContainerSpec : RawContainerSpec
  Placement : Option RawPlacement := none
  Resources : Option RawResources := none
deriving DecidableEq

/-- The raw `Spec.Mode` dict, tested with `'Replicated' in mode.keys()` /
`'Global' in mode.keys()` and otherwise rejected (lines 387-394).
`Unknown` carries the string rendering used in the error message. -/
inductive RawMode where
  | Replicated (Replicas : Int)
  | Global
  | Unknown (repr : String)
deriving DecidableEq

/-- The raw `Spec` dict: `TaskTemplate` and `Mode` indexed directly,
`Labels` and `Networks` read with `.get` (lines 385, 387, 401).  Raw
network attachments have the same `{'Target': id}` shape the translator
emits. -/
structure RawSpec where
  TaskTemplate : RawTaskTemplate
  Labels : Option (List (String × String)) := none
  Mode : RawMode
  Networks : Option (List WireNetwork) := none
deriving DecidableEq

/-- The raw `Endpoint.Spec` dict: `Mode` read with `.get('Mode','vip')`,
`Ports` with `.get('Ports',[])` (lines 364-365). -/
structure RawEndpointSpec where
  Mode : Option String := none
  Ports : Option (List WirePort) := none
deriving DecidableEq

/-- The raw `Endpoint` dict (lines 360-362). -/
structure RawEndpoint where
  Spec : Option RawEndpointSpec := none
deriving DecidableEq

/-- The raw `Version` dict; `Index` indexed directly (line 404). -/
structure RawVersion where
  Index : Int
deriving DecidableEq

/-- One raw service record returned by `dc.services(filters=...)`. -/
structure RawService where
  Spec : RawSpec
  Endpoint : Option RawEndpoint := none
  Version : RawVersion
  ID : String
deriving DecidableEq

/-- The unit normalization of line 376/381:
`float(NanoCPUs)/1000000000`. -/
def fetchCpu (nano : Int) : ℚ := (nano : ℚ) / 1000000000

/-- The unit normalization of line 378/383:
`int(MemoryBytes)/1024/1024` — Python 2 floor division on ints. -/
def fetchMemory (bytes : Int) : Int := (bytes.fdiv 1024).fdiv 1024

/-- Lines 387-394: classify `Spec.Mode`, yielding the model `mode` string
and `replicas` (which keeps the constructor default 1 for global services). -/
def modeOf : RawMode → Except String (String × Int)
  | .Replicated r => .ok ("replicated", r)
  | .Global => .ok ("global", 1)
  | .Unknown r => .error ("Unknown service mode: " ++ r)

/-- Lines 401-403: map each attached network id back to a name via the
listing `networks_names_ids`; the list comprehension indexed with `[0]`
raises `IndexError` when no entry matches. -/
def resolveNetworkNames (ids : List NetworkNameId) : List WireNetwork → Except String (List String)
  | [] => .ok []
  | att :: rest =>
    match ((ids.filter (fun n => n.id == att.Target)).map (fun n => n.name)).head? with
    | some network_name =>
      match resolveNetworkNames ids rest with
      | .ok tail => .ok (network_name :: tail)
      | .error e => .error e
    | none => .error "list index out of range"

/-- `DockerServiceManager.get_service` (lines 341-406) after the service
listing: `none` when the name matched no service, otherwise the normalized
model.  Every field not set by the source keeps the `DockerService`
constructor default (in particular the `restart_policy*` fields are never
read back). -/
def get_service (raw? : Option RawService) (networks_names_ids : List NetworkNameId) :
    Except String (Option DockerService) :=
  match raw? with
  | none => .ok none
  | some raw_data =>
    let ttd := raw_data.Spec.TaskTemplate
    match modeOf raw_data.Spec.Mode with
    | .error e => .error e
    | .ok (mode, replicas) =>
      match resolveNetworkNames networks_names_ids (raw_data.Spec.Networks.getD []) with
      | .error e => .error e
      | .ok networks =>
        .ok (some
          { image := ttd.ContainerSpec.Image
            env := ttd.ContainerSpec.Env.getD []
            args := ttd.ContainerSpec.Args.getD []
            constraints :=
              match ttd.Placement with
              | some p => p.Constraints.getD []
              | none => []
            endpoint_mode :=
              match raw_data.Endpoint with
              | some ep =>
                match ep.Spec with
                | some eps => eps.Mode.getD "vip"
                | none => "vip"
              | none => "vip"
            publish :=
              match raw_data.Endpoint with
              | some ep =>
                match ep.Spec with
                | some eps => (eps.Ports.getD []).map (fun p =>
                    { protocol := p.Protocol
                      published_port := p.PublishedPort
                      target_port := p.TargetPort })
                | none => []
              | none => []
            limit_cpu :=
              match ttd.Resources with
              | some res =>
                match res.Limits with
                | some lim =>
                  match lim.NanoCPUs with
                  | some n => fetchCpu n
                  | none => 0
                | none => 0
              | none => 0
            limit_memory :=
              match ttd.Resources with
              | some res =>
                match res.Limits with
                | some lim =>
                  match lim.MemoryBytes with
                  | some b => fetchMemory b
                  | none => 0
                | none => 0
              | none => 0
            reserve_cpu :=
              match ttd.Resources with
              | some res =>
                match res.Reservations with
                | some rsv =>
                  match rsv.NanoCPUs with
                  | some n => fetchCpu n
                  | none => 0
                | none => 0
              | none => 0
            reserve_memory :=
              match ttd.Resources with
              | some res =>
                match res.Reservations with
                | some rsv =>
                  match rsv.MemoryBytes with
                  | some b => fetchMemory b
                  | none => 0
                | none => 0
              | none => 0
            labels := raw_data.Spec.Labels.getD []
            container_labels := ttd.ContainerSpec.Labels.getD []
            mode := mode
            replicas := replicas
            mounts := (ttd.ContainerSpec.Mounts.getD []).map (fun m =>
              { source := m.Source, type := m.MountType, target := m.Target })
            networks := networks
            service_version := some raw_data.Version.Index
            service_id := some raw_data.ID })

/-- The payload of the `dc.update_service` call (lines 410-419): the first
two positional arguments are `old_service.service_id` and
`old_service.service_version`, the rest are built from the new service. -/
structure DcUpdateServiceCall where
  service_id : Option String
  service_version : Option Int
  name : String
  endpoint_config : EndpointSpec
  networks : List WireNetwork
  mode : ServiceModeWire
  task_template : TaskTemplate
  labels : List (String × String)
deriving DecidableEq

/-- `DockerServiceManager.update_service` (lines 408-419): translate the new
service, then invoke `dc.update_service` with the old service's identity and
version.  The translation error (unknown network) propagates. -/
def update_service (name : String) (old_service new_service : DockerService)
    (docker_networks : List NetworkNameId) : Except String DcUpdateServiceCall :=
  match generate_docker_py_service_description new_service name docker_networks with
  | .error e => .error e
  | .ok (task_template, networks, endpoint_spec, mode, labels) =>
    .ok { service_id := old_service.service_id
          service_version := old_service.service_version
          name := name
          endpoint_config := endpoint_spec
          networks := networks
          mode := mode
          task_template := task_template
          labels := labels }

/-- Shared projection: a successfully fetched service carries the raw
record's `ID` and `Version.Index` as its identity fields. -/
theorem get_service_identity (raw : RawService) (ids : List NetworkNameId)
    (ds : DockerService) (h : get_service (some raw) ids = .ok (some ds)) :
    ds.service_id = some raw.ID ∧ ds.service_version = some raw.Version.Index := by
  simp only [get_service] at h
  cases hm : modeOf raw.Spec.Mode with
  | error e => simp [hm] at h
  | ok mr =>
    obtain ⟨mode, replicas⟩ := mr
    simp only [hm] at h
    cases hn : resolveNetworkNames ids (raw.Spec.Networks.getD []) with
    | error e => simp [hn] at h
    | ok networks =>
      simp only [hn, Except.ok.injEq, Option.some.injEq] at h
      rw [← h]
      exact ⟨rfl, rfl⟩

/-- C8: the `dc.update_service` call built from a fetched actual service
passes exactly the raw record's `ID` and `Version.Index` as its first two
arguments — the identity and version round-trip unchanged from fetch into
the update call. -/
theorem update_uses_fetched_identity (raw : RawService) (ids : List NetworkNameId)
    (ds : DockerService) (h : get_service (some raw) ids = .ok (some ds))
    (name : String) (new_service : DockerService)
    (docker_networks : List NetworkNameId) (call : DcUpdateServiceCall)
    (hu : update_service name ds new_service docker_networks = .ok call) :
    call.service_id = some raw.ID ∧ call.service_version = some raw.Version.Index := by
  obtain ⟨hid, hver⟩ := get_service_identity raw ids ds h
  unfold update_service at hu
  cases hg : generate_docker_py_service_description new_service name docker_networks with
  | error e => rw [hg] at hu; cases hu
  | ok d =>
    obtain ⟨task_template, networks, endpoint_spec, mode, labels⟩ := d
    rw [hg] at hu
    simp only [Except.ok.injEq] at hu
    rw [← hu]
    exact ⟨hid, hver⟩

/-- C8 witness input: a raw record with identity `abc123` and version 7. -/
def w8Raw : RawService :=
  { Spec := { TaskTemplate := { ContainerSpec := { Image := "img" } }, Mode := .Replicated 1 }
    Version := { Index := 7 }
    ID := "abc123" }

/-- C8 witness: the model fetched from `w8Raw`. -/
def w8Ds : DockerService :=
  { image := "img", replicas := 1, service_id := some "abc123", service_version := some 7 }

/-- C8 witness: the `dc.update_service` payload produced for `w8Ds` and a
default desired spec. -/
def w8Call : DcUpdateServiceCall :=
  { service_id := some "abc123"
    service_version := some 7
    name := "svc"
    endpoint_config := { Mode := "vip", Ports := [] }
    networks := []
    mode := .Replicated 1
    task_template :=
      { container_spec := { Image := "", Mounts := [], Args := [], Env := [], Labels := [] }
        restart_policy := { condition := none, delay := none, max_attempts := none, window := none }
        placement := []
        resources :=
          { Limits := { NanoCPUs := pyInt ((0 : ℚ) * 1000000000), MemoryBytes := 0 * 1024 * 1024 }
            Reservations := { NanoCPUs := pyInt ((0 : ℚ) * 1000000000), MemoryBytes := 0 * 1024 * 1024 } } }
    labels := [] }

theorem update_uses_fetched_identity_witness :
    w8Call.service_id = some w8Raw.ID ∧
    w8Call.service_version = some w8Raw.Version.Index :=
  update_uses_fetched_identity w8Raw [] w8Ds rfl "svc" {} [] w8Call rfl

/-- C10 counterexample input: half a nano-CPU. -/
def c10Spec : DockerService := { limit_cpu := 1 / 2000000000 }

/-- C10 counterexample: translating `limit_cpu = 0.5e-9` yields 0 nano-CPUs
(truncation), and the fetcher's normalization maps that back to 0, not the
original `limit_cpu` — the claimed round-trip fails for values that are not
whole nano-CPU counts. -/
theorem unit_roundtrip_counterexample :
    ∃ d : WireDescription,
      generate_docker_py_service_description c10Spec "svc" [] = .ok d ∧
      fetchCpu d.1.resources.Limits.NanoCPUs = 0 ∧
      c10Spec.limit_cpu ≠ 0 := by
  refine ⟨_, generate_eq_ok c10Spec "svc" [] [] rfl, ?_, by norm_num [c10Spec]⟩
  show fetchCpu (pyInt (c10Spec.limit_cpu * 1000000000)) = 0
  have h : (c10Spec.limit_cpu * 1000000000) = (1 / 2 : ℚ) := by norm_num [c10Spec]
  have hz : pyInt (c10Spec.limit_cpu * 1000000000) = 0 := by
    rw [pyInt, h, if_pos (by norm_num), Int.floor_eq_iff]
    norm_num
  rw [hz]
  norm_num [fetchCpu]

/-- C10 amended: the fetcher's normalization returns the original
`limit_memory` unconditionally, and the original `limit_cpu` exactly when
`limit_cpu * 1e9` is an integer (denominator 1); sub-nano-CPU fractions are
truncated by `int()` and lost.  (The reservation fields do not round-trip:
the translator derives them from the limit fields, see the C3 result.) -/
theorem unit_roundtrip (s : DockerService) (name : String)
    (known : List NetworkNameId) (d : WireDescription)
    (h : generate_docker_py_service_description s name known = .ok d) :
    fetchMemory d.1.resources.Limits.MemoryBytes = s.limit_memory ∧
    (fetchCpu d.1.resources.Limits.NanoCPUs = s.limit_cpu ↔
      (s.limit_cpu * 1000000000).den = 1) := by
  obtain ⟨h1, h2⟩ := generate_ok_limits s name known d h
  constructor
  · rw [h2, fetchMemory, Int.mul_fdiv_cancel _ (by norm_num),
        Int.mul_fdiv_cancel _ (by norm_num)]
  · rw [h1]
    constructor
    · intro hrt
      rw [fetchCpu, div_eq_iff (by norm_num : (1000000000 : ℚ) ≠ 0)] at hrt
      rw [← hrt, Rat.den_intCast]
    · intro hden
      have hq : ((s.limit_cpu * 1000000000).num : ℚ) = s.limit_cpu * 1000000000 :=
        (Rat.den_eq_one_iff _).mp hden
      have hpy : pyInt (s.limit_cpu * 1000000000) = (s.limit_cpu * 1000000000).num := by
        rw [pyInt]
        split
        · conv_lhs => rw [← hq]
          rw [Int.floor_intCast]
        · conv_lhs => rw [← hq]
          rw [Int.ceil_intCast]
      rw [hpy, fetchCpu, hq]
      exact mul_div_cancel_right₀ s.limit_cpu (by norm_num)

/-- C10 witness input: 3 CPU cores, 6 MiB. -/
def w10Spec : DockerService := { limit_cpu := 3, limit_memory := 6 }

/-- C10 witness output: the translation of `w10Spec` against no networks. -/
def w10Desc : WireDescription :=
  ({ container_spec := { Image := "", Mounts := [], Args := [], Env := [], Labels := [] }
     restart_policy := { condition := none, delay := none, max_attempts := none, window := none }
     placement := []
     resources :=
       { Limits := { NanoCPUs := pyInt ((3 : ℚ) * 1000000000), MemoryBytes := 6 * 1024 * 1024 }
         Reservations := { NanoCPUs := pyInt ((3 : ℚ) * 1000000000), MemoryBytes := 6 * 1024 * 1024 } } },
   [], { Mode := "vip", Ports := [] }, .Replicated 1, [])

theorem unit_roundtrip_witness :
    fetchMemory w10Desc.1.resources.Limits.MemoryBytes = w10Spec.limit_memory ∧
    (fetchCpu w10Desc.1.resources.Limits.NanoCPUs = w10Spec.limit_cpu ↔
      (w10Spec.limit_cpu * 1000000000).den = 1) :=
  unit_roundtrip w10Spec "svc" [] w10Desc
    (generate_eq_ok w10Spec "svc" [] [] rfl)

/-- C7: diffing any spec against itself yields changed=false, no changed
fields, needRecreate=false. -/
theorem compare_services_self (s : DockerService) :
    compare_services s s = (false, [], false) := by
  simp [compare_services, pyDictEq_self]

/-- C2: the differ's `need_recreate` flag is true exactly when the
`networks` fields differ, whatever the other fields do. -/
theorem compare_services_need_recreate (s1 s2 : DockerService) :
    (compare_services s1 s2).2.2 = decide (s1.networks ≠ s2.networks) := by
  by_cases h : s1.networks = s2.networks <;> simp [compare_services, h]
